import Mathlib

/-!
Verification of the tool-registry builder `build_tools_from_yaml`
(`src/tools/registry.py`) of the ai-maf-poc-agent repository.

The builder receives a sequence of YAML tool declarations — each a
Python mapping with a discriminant (`type`, legacy alias `kind`), an
identifier (`id`, legacy alias `name`) and an `options` mapping — and
produces a sequence of concrete tool descriptors, raising `ValueError`
for hard-required fields and printing advisory warnings otherwise.

Python values occurring in these mappings are embedded as `PyVal`
(strings, `None`, lists, nested mappings) together with Python
truthiness.  A mapping is a key-ordered association list.  The printed
warnings are reified as a `Warning` trace and the raised `ValueError`s
as a `BuildError`, so the embedding of the builder returns
`Except BuildError (List Warning × List ToolDescriptor)`.
-/

/-- A Python value as it occurs in a parsed YAML tool declaration:
a string, `None`, a list, or a nested mapping. -/
inductive PyVal : Type where
  | str (s : String)
  | vnone
  | list (xs : List PyVal)
  | dict (entries : List (String × PyVal))

/-- A Python mapping (`dict`) with string keys, as an association list
in insertion order. -/
def Dict : Type := List (String × PyVal)

/-- `d.get(k)` without default: the first value stored under `k`,
if the key is present. -/
def dictFind (d : Dict) (k : String) : Option PyVal :=
  (List.find? (fun p => p.1 == k) d).map (fun p => p.2)

/-- Python `d.get(k)`: the stored value, or `None` when `k` is absent. -/
def dictGet (d : Dict) (k : String) : PyVal :=
  (dictFind d k).getD PyVal.vnone

/-- Python `d.get(k, default)`: the stored value (even when it is
`None`), or `default` when the key is absent. -/
def dictGetD (d : Dict) (k : String) (v : PyVal) : PyVal :=
  (dictFind d k).getD v

/-- Python `k in d`. -/
def dictHasKey (d : Dict) (k : String) : Bool :=
  (dictFind d k).isSome

/-- Python truthiness of a `PyVal`: `None` and empty strings,
lists and mappings are falsy. -/
def truthy : PyVal → Bool
  | PyVal.str s => !(s == "")
  | PyVal.vnone => false
  | PyVal.list xs => !xs.isEmpty
  | PyVal.dict xs => !xs.isEmpty

/-- Python `v == s` for a string literal `s`: true exactly when `v`
is that string (comparison with non-strings is `False`). -/
def eqStr (v : PyVal) (s : String) : Bool :=
  match v with
  | PyVal.str t => t == s
  | _ => false

/-- The concrete tool objects the registry constructs
(`AzureAISearchAgentTool`, `FileSearchTool`, `OpenApiAgentTool`,
`MCPTool`, `CodeInterpreterTool`), with exactly the constructor
arguments the source passes.  `OpenApiAgentTool` is built either with
or without the `connection_id` keyword, hence the `Option`. -/
inductive ToolDescriptor : Type where
  | azureAISearchAgentTool (name : PyVal) (connection_id : PyVal) (index_name : PyVal)
  | fileSearchTool (name : PyVal) (vector_store_id : PyVal)
  | openApiAgentTool (spec_url : PyVal) (connection_id : Option PyVal)
  | mcpTool (name : PyVal) (server_url : PyVal) (allowed_tools : PyVal)
  | codeInterpreterTool (name : PyVal) (max_execution_time_seconds : PyVal)
      (memory_limit_mb : PyVal)

/-- The advisory messages the builder prints: a declaration with no
resolvable `type`, a `file_search` declaration with a falsy
`vector_store_id`, and an unsupported discriminant. -/
inductive Warning : Type where
  | missingType (t : Dict)
  | fileSearchMissingVectorStore (toolId : PyVal)
  | unsupportedType (toolType : PyVal)

/-- The exceptions the builder can raise: the two `ValueError`s, whose
f-string messages embed the resolved tool id (carried here as the
payload), and the `AttributeError` Python raises when `options` is not
a mapping and `.get` is called on it. -/
inductive BuildError : Type where
  | openApiMissingSpec (toolId : PyVal)
  | mcpMissingServerUrl (toolId : PyVal)
  | attributeError

/-- The resolved discriminant: `t.get("type")`, replaced by
`t.get("kind")` when it is falsy and the key `kind` is present
(registry.py lines 24, 29-30). -/
def resolveType (t : Dict) : PyVal :=
  let tool_type := dictGet t "type"
  if !truthy tool_type && dictHasKey t "kind" then dictGet t "kind" else tool_type

/-- The resolved identifier: `t.get("id")`, replaced by
`t.get("name")` when it is falsy and the key `name` is present
(registry.py lines 25, 31-32). -/
def resolveId (t : Dict) : PyVal :=
  let tool_id := dictGet t "id"
  if !truthy tool_id && dictHasKey t "name" then dictGet t "name" else tool_id

/-- One iteration of the builder loop (registry.py lines 23-131): the
warnings printed for this declaration and the descriptor appended, if
any, or the exception raised. -/
def buildOne (t : Dict) : Except BuildError (List Warning × Option ToolDescriptor) :=
  let tool_type := resolveType t
  let tool_id := resolveId t
  let optionsVal := dictGetD t "options" (PyVal.dict [])
  if !truthy tool_type then
    Except.ok ([Warning.missingType t], none)
  else if eqStr tool_type "azure_ai_search" then
    match optionsVal with
    | PyVal.dict options =>
      Except.ok ([], some (ToolDescriptor.azureAISearchAgentTool tool_id
        (dictGetD options "connection_id" (PyVal.str "CONN_PRIMARY_SEARCH"))
        (dictGetD options "index_name" (PyVal.str "primary-search-index"))))
    | _ => Except.error BuildError.attributeError
  else if eqStr tool_type "file_search" then
    match optionsVal with
    | PyVal.dict options =>
      let vector_store_id := dictGet options "vector_store_id"
      Except.ok
        ((if !truthy vector_store_id
            then [Warning.fileSearchMissingVectorStore tool_id] else []),
         some (ToolDescriptor.fileSearchTool tool_id vector_store_id))
    | _ => Except.error BuildError.attributeError
  else if eqStr tool_type "openapi" then
    match optionsVal with
    | PyVal.dict options =>
      let spec0 := dictGet options "specification"
      let spec_url := if !truthy spec0 then dictGet options "spec_url" else spec0
      if !truthy spec_url then
        Except.error (BuildError.openApiMissingSpec tool_id)
      else
        let connection_id := dictGet options "connection_id"
        if truthy connection_id then
          Except.ok ([], some (ToolDescriptor.openApiAgentTool spec_url (some connection_id)))
        else
          Except.ok ([], some (ToolDescriptor.openApiAgentTool spec_url none))
    | _ => Except.error BuildError.attributeError
  else if eqStr tool_type "mcp" then
    match optionsVal with
    | PyVal.dict options =>
      let server_url := dictGet options "server_url"
      let allowed_tools := dictGetD options "allowed_tools" (PyVal.list [])
      if !truthy server_url then
        Except.error (BuildError.mcpMissingServerUrl tool_id)
      else
        Except.ok ([], some (ToolDescriptor.mcpTool tool_id server_url allowed_tools))
    | _ => Except.error BuildError.attributeError
  else if eqStr tool_type "code_interpreter" then
    match optionsVal with
    | PyVal.dict options =>
      Except.ok ([], some (ToolDescriptor.codeInterpreterTool tool_id
        (dictGet options "max_execution_time_seconds")
        (dictGet options "memory_limit_mb")))
    | _ => Except.error BuildError.attributeError
  else if eqStr tool_type "bing_connection" then
    Except.ok ([], none)
  else
    Except.ok ([Warning.unsupportedType tool_type], none)

/-- The builder loop over the whole declaration sequence: processes
declarations in order, accumulating warnings and descriptors, and
aborts at the first raised exception (registry.py lines 21-133). -/
def buildTools : List Dict → Except BuildError (List Warning × List ToolDescriptor)
  | [] => Except.ok ([], [])
  | t :: rest =>
    match buildOne t with
    | Except.error e => Except.error e
    | Except.ok (ws, d?) =>
      match buildTools rest with
      | Except.error e => Except.error e
      | Except.ok (ws2, ds) =>
        Except.ok (ws ++ ws2, (match d? with | some d => [d] | none => []) ++ ds)

/-- `build_tools_from_yaml(project_client, tools_cfg)`: the client
handle is never dereferenced; `tools_cfg or []` treats an absent
sequence as empty (registry.py line 23). -/
def build_tools_from_yaml {α : Type} (project_client : α)
    (tools_cfg : Option (List Dict)) :
    Except BuildError (List Warning × List ToolDescriptor) :=
  buildTools (tools_cfg.getD [])

/-! ### General lemmas about the builder loop -/

/-- Splitting the builder loop at a list append: the loop processes the
prefix first and only reaches the suffix when the prefix raised no
exception. -/
theorem buildTools_append (xs ys : List Dict) :
    buildTools (xs ++ ys) =
      match buildTools xs, buildTools ys with
      | Except.ok (w1, d1), Except.ok (w2, d2) => Except.ok (w1 ++ w2, d1 ++ d2)
      | Except.error e, _ => Except.error e
      | Except.ok _, Except.error e => Except.error e := by
  induction xs with
  | nil =>
    cases h : buildTools ys with
    | error e => simp [buildTools, h]
    | ok r => obtain ⟨w2, d2⟩ := r; simp [buildTools, h]
  | cons t xs ih =>
    show buildTools (t :: (xs ++ ys)) = _
    cases hb : buildOne t with
    | error e => simp [buildTools, hb]
    | ok p =>
      obtain ⟨ws, d?⟩ := p
      cases hx : buildTools xs with
      | error e => simp [buildTools, hb, ih, hx]
      | ok q =>
        obtain ⟨w1, d1⟩ := q
        cases hy : buildTools ys with
        | error e => simp [buildTools, hb, ih, hx, hy]
        | ok r =>
          obtain ⟨w2, d2⟩ := r
          simp [buildTools, hb, ih, hx, hy]

/-- A declaration on which the loop body raises nothing and appends no
descriptor leaves the descriptor output of the surrounding batch
unchanged, wherever it is placed. -/
theorem buildOne_skip_snd (t : Dict) (ws : List Warning)
    (h : buildOne t = Except.ok (ws, none)) (pre post : List Dict) :
    (buildTools (pre ++ t :: post)).map Prod.snd =
      (buildTools (pre ++ post)).map Prod.snd := by
  rw [buildTools_append, buildTools_append]
  cases hp : buildTools pre with
  | error e => rfl
  | ok p =>
    obtain ⟨w1, d1⟩ := p
    cases hq : buildTools post with
    | error e => simp [buildTools, h, hq]
    | ok q =>
      obtain ⟨w2, d2⟩ := q
      simp [buildTools, h, hq, Except.map]

/-! ### Claim theorems -/

/-- C9: when the input declaration sequence is absent (`None`) or
empty, `build_tools_from_yaml` returns an empty output (and prints no
warnings) without raising, for any value of the client handle. -/
theorem build_empty_or_absent {α : Type} (project_client : α) :
    build_tools_from_yaml project_client none = Except.ok ([], []) ∧
    build_tools_from_yaml project_client (some []) = Except.ok ([], []) :=
  ⟨rfl, rfl⟩

/-- C3: whenever the builder completes without raising, the descriptor
output is exactly the sequence of descriptors produced by the
successfully-built declarations, in input order; skipped entries are
omitted without reordering the rest. -/
theorem buildTools_order_preservation (cfg : List Dict) (ws : List Warning)
    (ds : List ToolDescriptor) (h : buildTools cfg = Except.ok (ws, ds)) :
    ds = cfg.filterMap (fun t =>
      match buildOne t with
      | Except.ok (_, d?) => d?
      | Except.error _ => none) := by
  induction cfg generalizing ws ds with
  | nil =>
    simp only [buildTools, Except.ok.injEq, Prod.mk.injEq] at h
    simp [h.2]
  | cons t rest ih =>
    cases hb : buildOne t with
    | error e => simp [buildTools, hb] at h
    | ok p =>
      obtain ⟨w, d?⟩ := p
      cases hr : buildTools rest with
      | error e => simp [buildTools, hb, hr] at h
      | ok q =>
        obtain ⟨w2, ds2⟩ := q
        simp only [buildTools, hb, hr, Except.ok.injEq, Prod.mk.injEq] at h
        rw [List.filterMap_cons, ← ih w2 ds2 hr, hb]
        cases d? with
        | none => simpa using h.2.symm
        | some d => simpa using h.2.symm

/-- Closed instance of C3: a three-declaration batch whose middle entry
is skipped yields the two descriptors of the outer entries in order. -/
theorem buildTools_order_preservation_witness :
    [ToolDescriptor.azureAISearchAgentTool (PyVal.str "A")
       (PyVal.str "CONN_PRIMARY_SEARCH") (PyVal.str "primary-search-index"),
     ToolDescriptor.codeInterpreterTool (PyVal.str "C") PyVal.vnone PyVal.vnone] =
    ([[("type", PyVal.str "azure_ai_search"), ("id", PyVal.str "A")],
      [("type", PyVal.str "unknown_kind")],
      [("type", PyVal.str "code_interpreter"), ("id", PyVal.str "C")]] : List Dict).filterMap
      (fun t => match buildOne t with
        | Except.ok (_, d?) => d?
        | Except.error _ => none) :=
  buildTools_order_preservation _
    [Warning.unsupportedType (PyVal.str "unknown_kind")] _ rfl

/-- C1: a declaration whose resolved discriminant is `"openapi"` and
whose options mapping contains neither a `specification` nor a
`spec_url` key makes the whole build raise
`ValueError("OpenAPI tool '<id>' missing 'specification' URL")` — the
error payload names the resolved tool id — provided the declarations
before it raised nothing themselves.  The result is an exception
independent of the declarations after it: no descriptors at all are
returned and the suffix is never processed. -/
theorem openapi_missing_spec_fatal (pre post : List Dict) (t : Dict)
    (opts : List (String × PyVal)) (r : List Warning × List ToolDescriptor)
    (htype : resolveType t = PyVal.str "openapi")
    (hopts : dictGetD t "options" (PyVal.dict []) = PyVal.dict opts)
    (hspec : dictFind opts "specification" = none)
    (hlegacy : dictFind opts "spec_url" = none)
    (hpre : buildTools pre = Except.ok r) :
    buildTools (pre ++ t :: post) =
      Except.error (BuildError.openApiMissingSpec (resolveId t)) := by
  have hone : buildOne t = Except.error (BuildError.openApiMissingSpec (resolveId t)) := by
    simp only [buildOne, htype, hopts, dictGet, hspec, hlegacy, truthy, eqStr]
    simp
  obtain ⟨w1, d1⟩ := r
  rw [buildTools_append, hpre]
  simp [buildTools, hone]

/-- Closed instance of C1: an `openapi` declaration with empty options
placed between two well-formed declarations aborts the whole build with
the error naming its id. -/
theorem openapi_missing_spec_fatal_witness :
    buildTools [[("type", PyVal.str "azure_ai_search"), ("id", PyVal.str "A")],
                [("type", PyVal.str "openapi"), ("id", PyVal.str "W"),
                 ("options", PyVal.dict [])],
                [("type", PyVal.str "code_interpreter"), ("id", PyVal.str "C")]] =
      Except.error (BuildError.openApiMissingSpec (PyVal.str "W")) :=
  openapi_missing_spec_fatal
    [[("type", PyVal.str "azure_ai_search"), ("id", PyVal.str "A")]]
    [[("type", PyVal.str "code_interpreter"), ("id", PyVal.str "C")]]
    [("type", PyVal.str "openapi"), ("id", PyVal.str "W"), ("options", PyVal.dict [])]
    []
    ([], [ToolDescriptor.azureAISearchAgentTool (PyVal.str "A")
      (PyVal.str "CONN_PRIMARY_SEARCH") (PyVal.str "primary-search-index")])
    rfl rfl rfl rfl rfl


/-! ### Reduction of the loop body on each dispatch branch -/

/-- Loop-body reduction on the `azure_ai_search` branch
(registry.py lines 39-48). -/
theorem buildOne_azure (t : Dict) (opts : List (String × PyVal))
    (htype : resolveType t = PyVal.str "azure_ai_search")
    (hopts : dictGetD t "options" (PyVal.dict []) = PyVal.dict opts) :
    buildOne t = Except.ok ([],
      some (ToolDescriptor.azureAISearchAgentTool (resolveId t)
        (dictGetD opts "connection_id" (PyVal.str "CONN_PRIMARY_SEARCH"))
        (dictGetD opts "index_name" (PyVal.str "primary-search-index")))) := by
  simp only [buildOne, htype, hopts, truthy, eqStr]
  simp

/-- Loop-body reduction on the `file_search` branch
(registry.py lines 51-62). -/
theorem buildOne_file_search (t : Dict) (opts : List (String × PyVal))
    (htype : resolveType t = PyVal.str "file_search")
    (hopts : dictGetD t "options" (PyVal.dict []) = PyVal.dict opts) :
    buildOne t = Except.ok
      ((if !truthy (dictGet opts "vector_store_id")
          then [Warning.fileSearchMissingVectorStore (resolveId t)] else []),
       some (ToolDescriptor.fileSearchTool (resolveId t)
         (dictGet opts "vector_store_id"))) := by
  simp only [buildOne, htype, hopts, truthy, eqStr]
  simp

/-- Loop-body reduction on the `openapi` branch
(registry.py lines 65-95). -/
theorem buildOne_openapi (t : Dict) (opts : List (String × PyVal))
    (htype : resolveType t = PyVal.str "openapi")
    (hopts : dictGetD t "options" (PyVal.dict []) = PyVal.dict opts) :
    buildOne t =
      (let spec_url := if !truthy (dictGet opts "specification")
          then dictGet opts "spec_url" else dictGet opts "specification"
       if !truthy spec_url then
         Except.error (BuildError.openApiMissingSpec (resolveId t))
       else if truthy (dictGet opts "connection_id") then
         Except.ok ([], some (ToolDescriptor.openApiAgentTool spec_url
           (some (dictGet opts "connection_id"))))
       else
         Except.ok ([], some (ToolDescriptor.openApiAgentTool spec_url none))) := by
  simp only [buildOne, htype, hopts, truthy, eqStr]
  simp

/-- Loop-body reduction on the `mcp` branch (registry.py lines 98-110). -/
theorem buildOne_mcp (t : Dict) (opts : List (String × PyVal))
    (htype : resolveType t = PyVal.str "mcp")
    (hopts : dictGetD t "options" (PyVal.dict []) = PyVal.dict opts) :
    buildOne t =
      (if !truthy (dictGet opts "server_url") then
        Except.error (BuildError.mcpMissingServerUrl (resolveId t))
      else
        Except.ok ([], some (ToolDescriptor.mcpTool (resolveId t)
          (dictGet opts "server_url")
          (dictGetD opts "allowed_tools" (PyVal.list []))))) := by
  simp only [buildOne, htype, hopts, truthy, eqStr]
  simp

/-- Counterexample to C2 as stated: in the declaration
`{type: "mcp", id: "M", options: {server_url: ""}}` the `server_url`
key is present and `allowed_tools` is absent, yet the build raises the
`server_url` `ValueError` instead of producing an `MCPTool`
descriptor — the required-field check tests truthiness, not presence. -/
theorem mcp_present_empty_server_url_counterexample :
    dictFind [("server_url", PyVal.str "")] "server_url" = some (PyVal.str "") ∧
    dictFind [("server_url", PyVal.str "")] "allowed_tools" = none ∧
    buildTools [[("type", PyVal.str "mcp"), ("id", PyVal.str "M"),
                 ("options", PyVal.dict [("server_url", PyVal.str "")])]] =
      Except.error (BuildError.mcpMissingServerUrl (PyVal.str "M")) :=
  ⟨rfl, rfl, rfl⟩

/-- C2 (amended): for an `mcp` declaration, a missing `server_url` key
aborts the whole build with the `ValueError` naming the resolved id;
and when `server_url` is present with a truthy (non-empty) value and
`allowed_tools` is absent, the loop body produces an `MCPTool`
descriptor with name the resolved id, the supplied `server_url`, and
an empty `allowed_tools` list. -/
theorem mcp_required_server_url (t : Dict) (opts : List (String × PyVal))
    (htype : resolveType t = PyVal.str "mcp")
    (hopts : dictGetD t "options" (PyVal.dict []) = PyVal.dict opts) :
    (dictFind opts "server_url" = none →
      ∀ (pre post : List Dict) (r : List Warning × List ToolDescriptor),
        buildTools pre = Except.ok r →
        buildTools (pre ++ t :: post) =
          Except.error (BuildError.mcpMissingServerUrl (resolveId t))) ∧
    (∀ url, dictFind opts "server_url" = some url → truthy url = true →
      dictFind opts "allowed_tools" = none →
      buildOne t = Except.ok ([],
        some (ToolDescriptor.mcpTool (resolveId t) url (PyVal.list [])))) := by
  constructor
  · intro hurl pre post r hpre
    have hone : buildOne t = Except.error (BuildError.mcpMissingServerUrl (resolveId t)) := by
      rw [buildOne_mcp t opts htype hopts]
      simp [dictGet, hurl, truthy]
    obtain ⟨w1, d1⟩ := r
    rw [buildTools_append, hpre]
    simp [buildTools, hone]
  · intro url hurl htruthy hallowed
    rw [buildOne_mcp t opts htype hopts]
    simp [dictGet, dictGetD, hurl, hallowed, htruthy]

/-- Closed instance of the amended C2: a well-formed `mcp` declaration
with no `allowed_tools` yields the descriptor with an empty list. -/
theorem mcp_required_server_url_witness :
    buildOne [("type", PyVal.str "mcp"), ("id", PyVal.str "M"),
              ("options", PyVal.dict [("server_url", PyVal.str "http://srv")])] =
      Except.ok ([], some (ToolDescriptor.mcpTool (PyVal.str "M")
        (PyVal.str "http://srv") (PyVal.list []))) :=
  (mcp_required_server_url
      [("type", PyVal.str "mcp"), ("id", PyVal.str "M"),
       ("options", PyVal.dict [("server_url", PyVal.str "http://srv")])]
      [("server_url", PyVal.str "http://srv")]
      rfl rfl).2 (PyVal.str "http://srv") rfl rfl rfl

/-- C4: a `file_search` declaration whose options lack
`vector_store_id` prints the missing-`vector_store_id` warning but
still appends a `FileSearchTool` descriptor whose `vector_store_id` is
`None`, and the surrounding batch goes on being processed — it is not
aborted. -/
theorem file_search_missing_vector_store_lenient (t : Dict)
    (opts : List (String × PyVal))
    (htype : resolveType t = PyVal.str "file_search")
    (hopts : dictGetD t "options" (PyVal.dict []) = PyVal.dict opts)
    (hvs : dictFind opts "vector_store_id" = none) :
    buildOne t = Except.ok ([Warning.fileSearchMissingVectorStore (resolveId t)],
      some (ToolDescriptor.fileSearchTool (resolveId t) PyVal.vnone)) ∧
    (∀ (pre post : List Dict) (w1 w2 : List Warning) (d1 d2 : List ToolDescriptor),
      buildTools pre = Except.ok (w1, d1) → buildTools post = Except.ok (w2, d2) →
      buildTools (pre ++ t :: post) =
        Except.ok (w1 ++ Warning.fileSearchMissingVectorStore (resolveId t) :: w2,
          d1 ++ ToolDescriptor.fileSearchTool (resolveId t) PyVal.vnone :: d2)) := by
  have hone : buildOne t =
      Except.ok ([Warning.fileSearchMissingVectorStore (resolveId t)],
        some (ToolDescriptor.fileSearchTool (resolveId t) PyVal.vnone)) := by
    rw [buildOne_file_search t opts htype hopts]
    simp [dictGet, hvs, truthy]
  refine ⟨hone, ?_⟩
  intro pre post w1 w2 d1 d2 hpre hpost
  rw [buildTools_append, hpre]
  simp [buildTools, hone, hpost]

/-- Closed instance of C4: a `file_search` declaration with empty
options between two well-formed declarations warns, degrades, and does
not stop the batch. -/
theorem file_search_missing_vector_store_lenient_witness :
    buildTools [[("type", PyVal.str "azure_ai_search"), ("id", PyVal.str "A")],
                [("type", PyVal.str "file_search"), ("id", PyVal.str "F"),
                 ("options", PyVal.dict [])],
                [("type", PyVal.str "code_interpreter"), ("id", PyVal.str "C")]] =
      Except.ok ([Warning.fileSearchMissingVectorStore (PyVal.str "F")],
        [ToolDescriptor.azureAISearchAgentTool (PyVal.str "A")
           (PyVal.str "CONN_PRIMARY_SEARCH") (PyVal.str "primary-search-index"),
         ToolDescriptor.fileSearchTool (PyVal.str "F") PyVal.vnone,
         ToolDescriptor.codeInterpreterTool (PyVal.str "C") PyVal.vnone PyVal.vnone]) :=
  (file_search_missing_vector_store_lenient
      [("type", PyVal.str "file_search"), ("id", PyVal.str "F"),
       ("options", PyVal.dict [])] [] rfl rfl rfl).2
    [[("type", PyVal.str "azure_ai_search"), ("id", PyVal.str "A")]]
    [[("type", PyVal.str "code_interpreter"), ("id", PyVal.str "C")]]
    [] []
    [ToolDescriptor.azureAISearchAgentTool (PyVal.str "A")
       (PyVal.str "CONN_PRIMARY_SEARCH") (PyVal.str "primary-search-index")]
    [ToolDescriptor.codeInterpreterTool (PyVal.str "C") PyVal.vnone PyVal.vnone]
    rfl rfl

/-- C5: an `azure_ai_search` declaration always succeeds, producing a
descriptor whose `connection_id` and `index_name` are the supplied
option values when present and the defaults `"CONN_PRIMARY_SEARCH"` /
`"primary-search-index"` otherwise; with empty options both defaults
appear, and with both keys supplied the supplied values appear
unchanged. -/
theorem azure_ai_search_defaults (t : Dict) (opts : List (String × PyVal))
    (htype : resolveType t = PyVal.str "azure_ai_search")
    (hopts : dictGetD t "options" (PyVal.dict []) = PyVal.dict opts) :
    buildOne t = Except.ok ([],
      some (ToolDescriptor.azureAISearchAgentTool (resolveId t)
        (dictGetD opts "connection_id" (PyVal.str "CONN_PRIMARY_SEARCH"))
        (dictGetD opts "index_name" (PyVal.str "primary-search-index")))) ∧
    (opts = [] → buildOne t = Except.ok ([],
      some (ToolDescriptor.azureAISearchAgentTool (resolveId t)
        (PyVal.str "CONN_PRIMARY_SEARCH") (PyVal.str "primary-search-index")))) ∧
    (∀ c i, dictFind opts "connection_id" = some c →
      dictFind opts "index_name" = some i →
      buildOne t = Except.ok ([],
        some (ToolDescriptor.azureAISearchAgentTool (resolveId t) c i))) := by
  have hone := buildOne_azure t opts htype hopts
  refine ⟨hone, ?_, ?_⟩
  · intro h
    subst h
    simpa [dictGetD, dictFind] using hone
  · intro c i hc hi
    simpa [dictGetD, hc, hi] using hone

/-- Closed instance of C5, the spec's end-to-end scenario: both option
keys supplied, the exact values appear with no defaulting. -/
theorem azure_ai_search_defaults_witness :
    buildOne [("type", PyVal.str "azure_ai_search"), ("id", PyVal.str "MySearch"),
              ("options", PyVal.dict [("connection_id", PyVal.str "CONN_1"),
                                      ("index_name", PyVal.str "index-1")])] =
      Except.ok ([], some (ToolDescriptor.azureAISearchAgentTool (PyVal.str "MySearch")
        (PyVal.str "CONN_1") (PyVal.str "index-1"))) :=
  (azure_ai_search_defaults
      [("type", PyVal.str "azure_ai_search"), ("id", PyVal.str "MySearch"),
       ("options", PyVal.dict [("connection_id", PyVal.str "CONN_1"),
                               ("index_name", PyVal.str "index-1")])]
      [("connection_id", PyVal.str "CONN_1"), ("index_name", PyVal.str "index-1")]
      rfl rfl).2.2 (PyVal.str "CONN_1") (PyVal.str "index-1") rfl rfl

/-- Counterexample to C6 as stated: the discriminant
`"bing_connection"` — the claim's own example of an unsupported kind —
has a dedicated `pass` branch, so the builder skips it SILENTLY: the
build of `[{type: "bing_connection", id: "B"}]` emits no warning at
all (and no descriptor), where the claim asserts a warning is
emitted. -/
theorem bing_connection_silent_counterexample :
    buildTools [[("type", PyVal.str "bing_connection"), ("id", PyVal.str "B")]] =
      Except.ok ([], []) :=
  rfl

/-- C6 (amended): a declaration whose resolved discriminant is truthy
but matches none of the five descriptor-producing kinds yields no
descriptor and the batch continues: for `"bing_connection"` the entry
is skipped silently (dedicated `pass` branch, no warning), and for any
other unrecognized discriminant the unsupported-type warning is
printed; in both cases the descriptors produced for the surrounding
declarations are exactly those of the input with this entry removed. -/
theorem unsupported_type_skipped (t : Dict) (ty : PyVal)
    (hty : resolveType t = ty) (htruthy : truthy ty = true)
    (hna : eqStr ty "azure_ai_search" = false)
    (hnf : eqStr ty "file_search" = false)
    (hno : eqStr ty "openapi" = false)
    (hnm : eqStr ty "mcp" = false)
    (hnc : eqStr ty "code_interpreter" = false) :
    ((eqStr ty "bing_connection" = true → buildOne t = Except.ok ([], none)) ∧
     (eqStr ty "bing_connection" = false →
        buildOne t = Except.ok ([Warning.unsupportedType ty], none))) ∧
    (∀ (pre post : List Dict),
      (buildTools (pre ++ t :: post)).map Prod.snd =
        (buildTools (pre ++ post)).map Prod.snd) := by
  have hbing : eqStr ty "bing_connection" = true → buildOne t = Except.ok ([], none) := by
    intro hb
    simp only [buildOne, hty, htruthy, hna, hnf, hno, hnm, hnc, hb]
    simp
  have hother : eqStr ty "bing_connection" = false →
      buildOne t = Except.ok ([Warning.unsupportedType ty], none) := by
    intro hb
    simp only [buildOne, hty, htruthy, hna, hnf, hno, hnm, hnc, hb]
    simp
  refine ⟨⟨hbing, hother⟩, ?_⟩
  intro pre post
  by_cases hb : eqStr ty "bing_connection" = true
  · exact buildOne_skip_snd t [] (hbing hb) pre post
  · exact buildOne_skip_snd t [Warning.unsupportedType ty]
      (hother (by simpa using hb)) pre post

/-- Closed instance of the amended C6: a genuinely unrecognized
discriminant is skipped with the unsupported-type warning. -/
theorem unsupported_type_skipped_witness :
    buildOne [("type", PyVal.str "frobnicate"), ("id", PyVal.str "F")] =
      Except.ok ([Warning.unsupportedType (PyVal.str "frobnicate")], none) :=
  ((unsupported_type_skipped
      [("type", PyVal.str "frobnicate"), ("id", PyVal.str "F")]
      (PyVal.str "frobnicate")
      rfl rfl rfl rfl rfl rfl rfl).1).2 rfl

/-- C7: the discriminant is resolved by preferring a truthy `type`
value and replacing an absent `type` by `kind`; the identifier by
preferring a truthy `id` value and replacing an absent `id` by `name`;
and when the resolved discriminant is still falsy the entry is warned
about and skipped, leaving the descriptors of the rest of the batch
unchanged — the batch does not fail. -/
theorem alias_resolution (t : Dict) :
    (∀ ty, dictFind t "type" = some ty → truthy ty = true → resolveType t = ty) ∧
    (dictFind t "type" = none → resolveType t = dictGet t "kind") ∧
    (∀ i, dictFind t "id" = some i → truthy i = true → resolveId t = i) ∧
    (dictFind t "id" = none → resolveId t = dictGet t "name") ∧
    (truthy (resolveType t) = false →
      buildOne t = Except.ok ([Warning.missingType t], none) ∧
      ∀ (pre post : List Dict),
        (buildTools (pre ++ t :: post)).map Prod.snd =
          (buildTools (pre ++ post)).map Prod.snd) := by
  refine ⟨?_, ?_, ?_, ?_, ?_⟩
  · intro ty hty htruthy
    simp [resolveType, dictGet, hty, htruthy]
  · intro hty
    by_cases hk : dictFind t "kind" = none
    · simp [resolveType, dictGet, dictHasKey, hty, hk, truthy]
    · obtain ⟨v, hv⟩ := Option.ne_none_iff_exists'.mp hk
      simp [resolveType, dictGet, dictHasKey, hty, hv, truthy]
  · intro i hi htruthy
    simp [resolveId, dictGet, hi, htruthy]
  · intro hi
    by_cases hn : dictFind t "name" = none
    · simp [resolveId, dictGet, dictHasKey, hi, hn, truthy]
    · obtain ⟨v, hv⟩ := Option.ne_none_iff_exists'.mp hn
      simp [resolveId, dictGet, dictHasKey, hi, hv, truthy]
  · intro hfalsy
    have hone : buildOne t = Except.ok ([Warning.missingType t], none) := by
      simp only [buildOne, hfalsy]
      simp
    exact ⟨hone, fun pre post => buildOne_skip_snd t [Warning.missingType t] hone pre post⟩

/-- Closed instance of C7: both legacy aliases in use at once — `kind`
supplies the discriminant and `name` the identifier — and a
declaration with no discriminant at all is skipped with a warning. -/
theorem alias_resolution_witness :
    resolveType [("kind", PyVal.str "mcp"), ("name", PyVal.str "M")] = PyVal.str "mcp" ∧
    resolveId [("kind", PyVal.str "mcp"), ("name", PyVal.str "M")] = PyVal.str "M" ∧
    buildOne [("id", PyVal.str "X")] =
      Except.ok ([Warning.missingType [("id", PyVal.str "X")]], none) :=
  ⟨(alias_resolution [("kind", PyVal.str "mcp"), ("name", PyVal.str "M")]).2.1 rfl,
   (alias_resolution [("kind", PyVal.str "mcp"), ("name", PyVal.str "M")]).2.2.2.1 rfl,
   ((alias_resolution [("id", PyVal.str "X")]).2.2.2.2 rfl).1⟩

/-- Counterexample to C8 as stated: in
`{type: "openapi", id: "WebSearch", options: {specification:
"https://example.com/spec.json", connection_id: ""}}` the
`connection_id` key IS present in the options, yet the produced
descriptor carries no `connection_id` — the inclusion check tests
truthiness, not presence, so "carries a connection_id if and only if
`connection_id` is present" fails. -/
theorem openapi_connection_present_not_carried_counterexample :
    dictFind [("specification", PyVal.str "https://example.com/spec.json"),
              ("connection_id", PyVal.str "")] "connection_id" =
      some (PyVal.str "") ∧
    buildTools [[("type", PyVal.str "openapi"), ("id", PyVal.str "WebSearch"),
                 ("options", PyVal.dict
                   [("specification", PyVal.str "https://example.com/spec.json"),
                    ("connection_id", PyVal.str "")])]] =
      Except.ok ([], [ToolDescriptor.openApiAgentTool
        (PyVal.str "https://example.com/spec.json") none]) :=
  ⟨rfl, rfl⟩

/-- C8 (amended): for an `openapi` declaration, the descriptor's
`spec_url` is the truthy `specification` option, falling back to the
legacy `spec_url` option when `specification` is absent; and the
descriptor carries a `connection_id` if and only if the
`connection_id` option is present with a truthy (non-empty) value, in
which case it carries exactly that value. -/
theorem openapi_spec_resolution (t : Dict) (opts : List (String × PyVal))
    (htype : resolveType t = PyVal.str "openapi")
    (hopts : dictGetD t "options" (PyVal.dict []) = PyVal.dict opts) :
    (∀ sv, dictFind opts "specification" = some sv → truthy sv = true →
      ∃ cid, buildOne t = Except.ok ([],
          some (ToolDescriptor.openApiAgentTool sv cid)) ∧
        cid = (if truthy (dictGet opts "connection_id")
          then some (dictGet opts "connection_id") else none)) ∧
    (dictFind opts "specification" = none →
      ∀ sv, dictFind opts "spec_url" = some sv → truthy sv = true →
      ∃ cid, buildOne t = Except.ok ([],
          some (ToolDescriptor.openApiAgentTool sv cid)) ∧
        cid = (if truthy (dictGet opts "connection_id")
          then some (dictGet opts "connection_id") else none)) := by
  constructor
  · intro sv hsv htruthy
    have hs : dictGet opts "specification" = sv := by simp [dictGet, hsv]
    by_cases hc : truthy (dictGet opts "connection_id") = true
    · refine ⟨some (dictGet opts "connection_id"), ?_, by simp [hc]⟩
      rw [buildOne_openapi t opts htype hopts]
      simp [hs, htruthy, hc]
    · refine ⟨none, ?_, by simp [hc]⟩
      rw [buildOne_openapi t opts htype hopts]
      simp [hs, htruthy, hc]
  · intro hspec sv hsv htruthy
    have hs : dictGet opts "specification" = PyVal.vnone := by simp [dictGet, hspec]
    have hsu : dictGet opts "spec_url" = sv := by simp [dictGet, hsv]
    have hnone : truthy PyVal.vnone = false := rfl
    by_cases hc : truthy (dictGet opts "connection_id") = true
    · refine ⟨some (dictGet opts "connection_id"), ?_, by simp [hc]⟩
      rw [buildOne_openapi t opts htype hopts]
      simp [hs, hsu, hnone, htruthy, hc]
    · refine ⟨none, ?_, by simp [hc]⟩
      rw [buildOne_openapi t opts htype hopts]
      simp [hs, hsu, hnone, htruthy, hc]

/-- Closed instance of the amended C8, the spec's end-to-end scenario:
one `openapi` declaration with only a `specification` yields exactly
one descriptor with that `spec_url` and no `connection_id`. -/
theorem openapi_spec_resolution_witness :
    buildTools [[("type", PyVal.str "openapi"), ("id", PyVal.str "WebSearch"),
                 ("options", PyVal.dict
                   [("specification", PyVal.str "https://example.com/spec.json")])]] =
      Except.ok ([], [ToolDescriptor.openApiAgentTool
        (PyVal.str "https://example.com/spec.json") none]) := by
  obtain ⟨cid, h1, h2⟩ :=
    (openapi_spec_resolution
        [("type", PyVal.str "openapi"), ("id", PyVal.str "WebSearch"),
         ("options", PyVal.dict
           [("specification", PyVal.str "https://example.com/spec.json")])]
        [("specification", PyVal.str "https://example.com/spec.json")]
        rfl rfl).1
      (PyVal.str "https://example.com/spec.json") rfl rfl
  have hcid : cid = none := by simpa [dictGet, dictFind, truthy] using h2
  rw [hcid] at h1
  simp [buildTools, h1]

/-- C10: the alias fallbacks and required-field checks fire on falsy
values, not only on absent keys.  A `type` stored as the empty string
falls back to `kind` (and the entry is skipped with the missing-type
warning when `kind` is also absent); an `openapi` declaration whose
`specification` is the empty string falls back to `spec_url` and
raises the fatal `ValueError` when that is falsy too; and a
`file_search` declaration whose `vector_store_id` is the empty string
triggers the missing-value warning exactly as if the key were
absent. -/
theorem falsy_triggers_fallbacks (t : Dict) (opts : List (String × PyVal)) :
    (dictFind t "type" = some (PyVal.str "") →
      (dictHasKey t "kind" = true → resolveType t = dictGet t "kind") ∧
      (dictHasKey t "kind" = false →
        buildOne t = Except.ok ([Warning.missingType t], none))) ∧
    (resolveType t = PyVal.str "openapi" →
      dictGetD t "options" (PyVal.dict []) = PyVal.dict opts →
      dictFind opts "specification" = some (PyVal.str "") →
      ((∀ sv, dictFind opts "spec_url" = some sv → truthy sv = true →
        ∃ cid, buildOne t = Except.ok ([],
          some (ToolDescriptor.openApiAgentTool sv cid))) ∧
       (truthy (dictGet opts "spec_url") = false →
        buildOne t = Except.error (BuildError.openApiMissingSpec (resolveId t))))) ∧
    (resolveType t = PyVal.str "file_search" →
      dictGetD t "options" (PyVal.dict []) = PyVal.dict opts →
      dictFind opts "vector_store_id" = some (PyVal.str "") →
      buildOne t =
        Except.ok ([Warning.fileSearchMissingVectorStore (resolveId t)],
          some (ToolDescriptor.fileSearchTool (resolveId t) (PyVal.str "")))) := by
  have hempty : truthy (PyVal.str "") = false := rfl
  refine ⟨?_, ?_, ?_⟩
  · intro hty
    constructor
    · intro hk
      simp [resolveType, dictGet, hty, hk, truthy]
    · intro hk
      have hfind : dictFind t "kind" = none := by
        simpa [dictHasKey, Option.not_isSome_iff_eq_none] using hk
      have hres : resolveType t = PyVal.str "" := by
        simp [resolveType, dictGet, dictHasKey, hty, hfind, truthy]
      simp only [buildOne, hres, hempty]
      simp
  · intro htype hopts hspec
    have hs : dictGet opts "specification" = PyVal.str "" := by simp [dictGet, hspec]
    constructor
    · intro sv hsv htruthy
      have hsu : dictGet opts "spec_url" = sv := by simp [dictGet, hsv]
      by_cases hc : truthy (dictGet opts "connection_id") = true
      · refine ⟨some (dictGet opts "connection_id"), ?_⟩
        rw [buildOne_openapi t opts htype hopts]
        simp [hs, hsu, hempty, htruthy, hc]
      · refine ⟨none, ?_⟩
        rw [buildOne_openapi t opts htype hopts]
        simp [hs, hsu, hempty, htruthy, hc]
    · intro hsu
      rw [buildOne_openapi t opts htype hopts]
      simp [hs, hempty, hsu]
  · intro htype hopts hvs
    have hv : dictGet opts "vector_store_id" = PyVal.str "" := by simp [dictGet, hvs]
    rw [buildOne_file_search t opts htype hopts]
    simp [hv, hempty]

/-- Closed instance of C10: all three falsy-value behaviours at
concrete declarations — empty-string `type` falling back to `kind`,
empty-string `specification` and `spec_url` aborting the build, and an
empty-string `vector_store_id` still triggering the warning. -/
theorem falsy_triggers_fallbacks_witness :
    resolveType [("type", PyVal.str ""), ("kind", PyVal.str "file_search")] =
      PyVal.str "file_search" ∧
    buildOne [("type", PyVal.str "openapi"), ("id", PyVal.str "W"),
              ("options", PyVal.dict [("specification", PyVal.str ""),
                                      ("spec_url", PyVal.str "")])] =
      Except.error (BuildError.openApiMissingSpec (PyVal.str "W")) ∧
    buildOne [("type", PyVal.str "file_search"), ("id", PyVal.str "F"),
              ("options", PyVal.dict [("vector_store_id", PyVal.str "")])] =
      Except.ok ([Warning.fileSearchMissingVectorStore (PyVal.str "F")],
        some (ToolDescriptor.fileSearchTool (PyVal.str "F") (PyVal.str ""))) :=
  ⟨((falsy_triggers_fallbacks
      [("type", PyVal.str ""), ("kind", PyVal.str "file_search")] []).1 rfl).1 rfl,
   ((falsy_triggers_fallbacks
      [("type", PyVal.str "openapi"), ("id", PyVal.str "W"),
       ("options", PyVal.dict [("specification", PyVal.str ""),
                               ("spec_url", PyVal.str "")])]
      [("specification", PyVal.str ""), ("spec_url", PyVal.str "")]).2.1
      rfl rfl rfl).2 rfl,
   (falsy_triggers_fallbacks
      [("type", PyVal.str "file_search"), ("id", PyVal.str "F"),
       ("options", PyVal.dict [("vector_store_id", PyVal.str "")])]
      [("vector_store_id", PyVal.str "")]).2.2 rfl rfl rfl⟩
